import Mathlib

/-!
Shallow embedding of the Run Orchestration Core of `skyvern`, translated from
`src/skyvern/forge/sdk/routes/agent_protocol.py` (the FastAPI route handlers
`cancel_workflow_run`, `cancel_task`, `get_workflow_run_timeline`,
`_flatten_workflow_run_timeline`, `run_task`, `run_task_v2`) and
`src/skyvern/client/types/workflow_run_timeline.py` (the `WorkflowRunTimeline`
record).  External collaborators (database, workflow service, executors, the
task-generation and task-v2 services) are modelled as explicit state or as
environment parameters; their behaviour, where it is not part of the source,
is modelled from the specification and marked as such.  Awaited calls are
sequenced as pure state passing, and the externally visible calls each handler
makes are recorded in an effect trace in program order.
-/

/-! ## Python value domain

The handlers coalesce optional request fields with Python's `or` operator,
whose branch condition is *truthiness* (`None`, `0`, `""`, `[]` and `{}` are
falsy).  `Json` models the JSON-like Python values these fields hold. -/

inductive Json where
  | null : Json
  | bool (b : Bool) : Json
  | num (n : Int) : Json
  | str (s : String) : Json
  | arr (elems : List Json) : Json
  | obj (fields : List (String × Json)) : Json

/-- Python truthiness of a JSON-like value. -/
def Json.truthy : Json → Bool
  | .null => false
  | .bool b => b
  | .num n => n != 0
  | .str s => s != ""
  | .arr elems => !elems.isEmpty
  | .obj fields => !fields.isEmpty

/-- Truthiness of an optional Python value (`None` is falsy). -/
def pyTruthy : Option Json → Bool
  | none => false
  | some v => v.truthy

/-- Python's `a or b` on optional JSON-like values: `b` whenever `a` is falsy. -/
def pyOr (a b : Option Json) : Option Json :=
  if pyTruthy a then a else b

/-- Truthiness of an optional Python string (`None` and `""` are falsy). -/
def pyTruthyStr : Option String → Bool
  | none => false
  | some s => s != ""

/-- Python's `a or b` on optional strings. -/
def pyOrStr (a b : Option String) : Option String :=
  if pyTruthyStr a then a else b

/-- An HTTP error response raised by a handler (`HTTPException` in the source):
status code plus detail message. -/
structure HttpError where
  status_code : Nat
  detail : String
deriving DecidableEq

/-! ## Statuses

Modelled from the spec (§3): statuses range over created, queued, running,
canceled, completed, failed, terminated (and timed_out, covered by the spec's
ellipsis); the terminal ones are canceled, completed, failed, terminated and
timed_out.  The enums themselves live outside `src/`. -/

inductive WorkflowRunStatus where
  | created | queued | running | failed | terminated | canceled | timed_out | completed
deriving DecidableEq

/-- A workflow-run status is terminal when no further transition is permitted. -/
def WorkflowRunStatus.is_terminal : WorkflowRunStatus → Bool
  | .failed | .terminated | .canceled | .timed_out | .completed => true
  | .created | .queued | .running => false

inductive TaskStatus where
  | created | queued | running | timed_out | failed | terminated | completed | canceled
deriving DecidableEq

/-! ## Workflow-run store and the cascade-cancel handler (`cancel_workflow_run`) -/

/-- A workflow run record (spec §3): id, workflow id, organization, status and
optional parent workflow run id. -/
structure WorkflowRun where
  workflow_run_id : String
  workflow_id : String
  organization_id : String
  status : WorkflowRunStatus
  parent_workflow_run_id : Option String
deriving DecidableEq

/-- Modelled from the spec: `app.DATABASE.get_workflow_run` (outside `src/`)
loads the workflow run with the given id belonging to the organization. -/
def get_workflow_run (runs : List WorkflowRun) (workflow_run_id organization_id : String) :
    Option WorkflowRun :=
  runs.find? (fun r => r.workflow_run_id == workflow_run_id && r.organization_id == organization_id)

/-- Modelled from the spec: `app.DATABASE.get_workflow_runs_by_parent_workflow_run_id`
(outside `src/`) returns the direct children of the given run in the organization. -/
def get_workflow_runs_by_parent_workflow_run_id
    (runs : List WorkflowRun) (organization_id parent_workflow_run_id : String) :
    List WorkflowRun :=
  runs.filter (fun r =>
    r.parent_workflow_run_id == some parent_workflow_run_id
      && r.organization_id == organization_id)

/-- Modelled from the spec: `app.WORKFLOW_SERVICE.mark_workflow_run_as_canceled`
(outside `src/`) sets the status of the run with the given id to canceled. -/
def mark_workflow_run_as_canceled (runs : List WorkflowRun) (workflow_run_id : String) :
    List WorkflowRun :=
  runs.map (fun r =>
    if r.workflow_run_id == workflow_run_id then { r with status := WorkflowRunStatus.canceled }
    else r)

/-- Externally visible calls made by `cancel_workflow_run`, in program order. -/
inductive CancelEffect where
  | markWorkflowRunCanceled (workflow_run_id : String)
  | workflowRunWebhook (workflow_run_id : String)
deriving DecidableEq

/-- Whether a `cancel_workflow_run` effect is a status write. -/
def CancelEffect.isStatusWrite : CancelEffect → Bool
  | .markWorkflowRunCanceled _ => true
  | .workflowRunWebhook _ => false

/-- Whether a `cancel_workflow_run` effect is a webhook fire. -/
def CancelEffect.isWebhook : CancelEffect → Bool
  | .markWorkflowRunCanceled _ => false
  | .workflowRunWebhook _ => true

/-- `cancel_workflow_run` (agent_protocol.py lines 289-317): load the run (404
when absent), fetch its direct children, cancel each child whose status is not
outside running/created/queued (the `continue` guard), cancel the target, then
fire the webhook for the loaded run.  Returns the updated store and the effect
trace, or the raised `HTTPException`. -/
def cancel_workflow_run (runs : List WorkflowRun) (workflow_run_id organization_id : String) :
    Except HttpError (List WorkflowRun × List CancelEffect) :=
  match get_workflow_run runs workflow_run_id organization_id with
  | none => Except.error ⟨404, "Workflow run not found " ++ workflow_run_id⟩
  | some workflow_run =>
      let child_workflow_runs :=
        get_workflow_runs_by_parent_workflow_run_id runs organization_id workflow_run_id
      let step := child_workflow_runs.foldl
        (fun acc child_workflow_run =>
          if child_workflow_run.status ∉
              [WorkflowRunStatus.running, WorkflowRunStatus.created, WorkflowRunStatus.queued] then
            acc
          else
            (mark_workflow_run_as_canceled acc.1 child_workflow_run.workflow_run_id,
             acc.2 ++ [CancelEffect.markWorkflowRunCanceled child_workflow_run.workflow_run_id]))
        (runs, ([] : List CancelEffect))
      Except.ok
        (mark_workflow_run_as_canceled step.1 workflow_run_id,
         step.2 ++ [CancelEffect.markWorkflowRunCanceled workflow_run_id,
                    CancelEffect.workflowRunWebhook workflow_run.workflow_run_id])

/-! ## Task store and the single-task cancel handler (`cancel_task`) -/

/-- A v1 task record (called `Task` in the source; renamed here because `Task`
is taken by the Lean prelude), reduced to the fields the cancel handler
touches; the `webhook_failure_reason` field records the outcome of a prior
webhook attempt and is deliberately ignored by the handler. -/
structure TaskV1 where
  task_id : String
  organization_id : String
  status : TaskStatus
  webhook_failure_reason : Option String
deriving DecidableEq

/-- Modelled from the spec: `app.DATABASE.get_task` (outside `src/`) loads the
task with the given id belonging to the organization. -/
def get_task (tasks : List TaskV1) (task_id organization_id : String) : Option TaskV1 :=
  tasks.find? (fun t => t.task_id == task_id && t.organization_id == organization_id)

/-- Modelled from the spec: `app.agent.update_task` (outside `src/`) writes the
given status on the task's record. -/
def update_task (tasks : List TaskV1) (task : TaskV1) (status : TaskStatus) : List TaskV1 :=
  tasks.map (fun t => if t.task_id == task.task_id then { t with status := status } else t)

/-- Externally visible calls made by `cancel_task`, in program order. -/
inductive TaskCancelEffect where
  | updateTaskStatus (task_id : String) (status : TaskStatus)
  | getLatestStep (task_id : String)
  | taskWebhook (task_id : String)
deriving DecidableEq

/-- `cancel_task` (agent_protocol.py lines 261-277): load the task (404 when
absent), mark it canceled, read its latest step, then fire the task webhook.
Returns the updated store, the effect trace, and the raised error if any. -/
def cancel_task (tasks : List TaskV1) (task_id organization_id : String) :
    List TaskV1 × List TaskCancelEffect × Option HttpError :=
  match get_task tasks task_id organization_id with
  | none => (tasks, [], some ⟨404, "Task not found " ++ task_id⟩)
  | some task_obj =>
      let updated := update_task tasks task_obj TaskStatus.canceled
      (updated,
       [TaskCancelEffect.updateTaskStatus task_obj.task_id TaskStatus.canceled,
        TaskCancelEffect.getLatestStep task_id,
        TaskCancelEffect.taskWebhook task_obj.task_id],
       none)

/-! ## Timeline records (`workflow_run_timeline.py`) and the aggregator -/

/-- Modelled from the spec: `BlockType` (outside `src/`) enumerates workflow
block kinds; the `TaskV2` variant denotes a nested autonomous sub-run. -/
inductive BlockType where
  | Task | ForLoop | Code | TextPrompt | Action | Navigation | Extraction | Validation | TaskV2
deriving DecidableEq

/-- A workflow-run block, reduced to the fields the aggregator reads plus an
identifying id. `block_workflow_run_id` points at the nested workflow run and
is set only for `TaskV2` blocks. -/
structure WorkflowRunBlock where
  workflow_run_block_id : String
  block_type : BlockType
  block_workflow_run_id : Option String
deriving DecidableEq

/-- One reasoning step of the autonomous engine (spec §3), with an id and its
timestamps. -/
structure ObserverThought where
  observer_thought_id : String
  created_at : Nat
  modified_at : Nat
deriving DecidableEq

inductive WorkflowRunTimelineType where
  | block | thought
deriving DecidableEq

/-- `WorkflowRunTimeline` from `src/skyvern/client/types/workflow_run_timeline.py`:
a view-level union of a block or a thought with its timestamps.  The reserved
`children` list (never populated by the aggregator, which flattens instead) is
omitted. -/
structure WorkflowRunTimeline where
  type : WorkflowRunTimelineType
  block : Option WorkflowRunBlock
  thought : Option ObserverThought
  created_at : Nat
  modified_at : Nat
deriving DecidableEq

/-- An autonomous (task v2) run record, reduced to the fields the handlers
read.  `observer_cruise_id` is the task v2 id. -/
structure TaskV2 where
  observer_cruise_id : String
  status : String
  prompt : Option String
  url : Option String
deriving DecidableEq

/-- Modelled from the spec: the record store as seen by the aggregator for one
organization (organization scoping is resolved by the external collaborators):
the optional task v2 record per workflow run id, the raw per-block timeline per
workflow run id, and the thought records per task v2 id. -/
structure TimelineDb where
  task_v2_by_workflow_run_id : String → Option TaskV2
  workflow_run_block_timeline : String → List WorkflowRunTimeline
  thought_timelines : String → List ObserverThought

/-- Modelled from the spec: `task_v2_service.get_thought_timelines` (outside
`src/`) renders a thought record as a timeline entry of kind thought. -/
def thought_to_timeline_entry (t : ObserverThought) : WorkflowRunTimeline :=
  { type := WorkflowRunTimelineType.thought
    block := none
    thought := some t
    created_at := t.created_at
    modified_at := t.modified_at }

/-- A `LOG.warning` record emitted by the aggregator: a `TaskV2` block whose
nested workflow run id is not set, logged with the workflow run id and the
task v2 id if any. -/
inductive TimelineWarning where
  | blockWorkflowRunIdNotSet (workflow_run_id : String) (task_v2_id : Option String)
deriving DecidableEq

/-- Descending order on timeline entries by creation timestamp: the sort key of
`final_workflow_run_block_timeline.sort(key=lambda x: x.created_at, reverse=True)`. -/
def timelineDesc (a b : WorkflowRunTimeline) : Prop :=
  b.created_at ≤ a.created_at

instance : DecidableRel timelineDesc := fun a b => Nat.decLe b.created_at a.created_at

instance : IsTotal WorkflowRunTimeline timelineDesc :=
  ⟨fun a b => Nat.le_total b.created_at a.created_at⟩

instance : IsTrans WorkflowRunTimeline timelineDesc :=
  ⟨fun _ _ _ h1 h2 => Nat.le_trans h2 h1⟩

/-- Python's `list.sort(key=..., reverse=True)` is a stable sort; a stable sort
is extensionally unique, so it is modelled by stable insertion sort. -/
def sortTimelineDesc (l : List WorkflowRunTimeline) : List WorkflowRunTimeline :=
  List.insertionSort timelineDesc l

/-- `_flatten_workflow_run_timeline` (agent_protocol.py lines 1451-1497) before
its final sort: fetch the task v2 record and the raw block timeline for the
workflow run id, then loop: entries without a block are skipped; entries with a
non-`TaskV2` block are appended as-is; `TaskV2` blocks without a nested
workflow run id are skipped with a warning; `TaskV2` blocks with a nested id
are replaced by the recursively flattened (sorted) timeline of the nested run;
finally, if a task v2 record with a truthy id exists, its thought entries are
appended.  The Python recursion has no depth guard; `fuel` bounds the recursion
depth in the model (an exhausted-fuel call contributes nothing). -/
def flatten_workflow_run_timeline_aux (db : TimelineDb) :
    Nat → String → List WorkflowRunTimeline × List TimelineWarning
  | 0, _ => ([], [])
  | fuel + 1, workflow_run_id =>
      let task_v2_obj := db.task_v2_by_workflow_run_id workflow_run_id
      let workflow_run_block_timeline := db.workflow_run_block_timeline workflow_run_id
      let looped := workflow_run_block_timeline.foldl
        (fun acc timeline =>
          match timeline.block with
          | none => acc
          | some block =>
            if block.block_type != BlockType.TaskV2 then
              (acc.1 ++ [timeline], acc.2)
            else
              match block.block_workflow_run_id with
              | none =>
                  (acc.1,
                   acc.2 ++ [TimelineWarning.blockWorkflowRunIdNotSet workflow_run_id
                      (task_v2_obj.map TaskV2.observer_cruise_id)])
              | some nested_workflow_run_id =>
                  let nested := flatten_workflow_run_timeline_aux db fuel nested_workflow_run_id
                  (acc.1 ++ sortTimelineDesc nested.1, acc.2 ++ nested.2))
        (([] : List WorkflowRunTimeline), ([] : List TimelineWarning))
      let with_thoughts :=
        match task_v2_obj with
        | some t =>
            if t.observer_cruise_id != "" then
              looped.1 ++ (db.thought_timelines t.observer_cruise_id).map thought_to_timeline_entry
            else looped.1
        | none => looped.1
      (with_thoughts, looped.2)

/-- `_flatten_workflow_run_timeline`: the accumulated list sorted by creation
timestamp descending, together with the warnings recorded along the way. -/
def flatten_workflow_run_timeline (db : TimelineDb) (fuel : Nat) (workflow_run_id : String) :
    List WorkflowRunTimeline × List TimelineWarning :=
  let acc := flatten_workflow_run_timeline_aux db fuel workflow_run_id
  (sortTimelineDesc acc.1, acc.2)

/-- `get_workflow_run_timeline` (agent_protocol.py lines 815-821): the endpoint
accepts `page` and `page_size` query parameters but returns the full flattened
timeline unconditionally. -/
def get_workflow_run_timeline (db : TimelineDb) (fuel : Nat) (workflow_run_id : String)
    (page page_size : Nat) : List WorkflowRunTimeline :=
  (flatten_workflow_run_timeline db fuel workflow_run_id).1

/-! ## Unified dispatch (`run_task`) and the dedicated v2 endpoint (`run_task_v2`)

The engine selector and the request/response schemas live outside `src/` and
are modelled from the spec; the collaborators `task_v1_service.generate_task`,
`task_v1_service.run_task` and `task_v2_service.initialize_task_v2` are
environment parameters.  Response records are reduced to a representative
subset of their fields; the claims under verification do not inspect the
omitted fields. -/

/-- Modelled from the spec: `RunEngine` (outside `src/`) is a string-valued
engine selector with members for the scripted v1 and autonomous v2 engines. -/
def RunEngine.skyvern_v1 : String := "skyvern-1.0"

/-- Modelled from the spec: the autonomous v2 member of `RunEngine`. -/
def RunEngine.skyvern_v2 : String := "skyvern-2.0"

/-- Modelled from the spec: `TaskRunRequest` (outside `src/`), the unified
dispatch request body, reduced to the fields `run_task` reads. -/
structure TaskRunRequest where
  engine : String
  title : Option String
  url : Option String
  goal : Option String
  data_extraction_schema : Option Json
  error_code_mapping : Option Json
  proxy_location : Option String
  totp_identifier : Option String
  totp_url : Option String
  webhook_url : Option String
  publish_workflow : Bool
  max_steps : Option Int
  browser_session_id : Option String

/-- Modelled from the spec: the result of the task-generation collaborator
(url, navigation goal, navigation payload, data extraction goal and schema
derived from a free-text goal). -/
structure TaskGeneration where
  url : Option String
  navigation_goal : Option String
  navigation_payload : Option Json
  data_extraction_goal : Option String
  extracted_information_schema : Option Json

/-- Modelled from the spec: the v1 `TaskRequest` that `run_task` constructs and
hands to `task_v1_service.run_task`, reduced to the fields `run_task` sets. -/
structure TaskRequest where
  title : Option String
  url : Option String
  navigation_goal : Option String
  navigation_payload : Option Json
  data_extraction_goal : Option String
  extracted_information_schema : Option Json
  error_code_mapping : Option Json
  proxy_location : Option String
  browser_session_id : Option String

/-- Modelled from the spec: the created v1 task returned by
`task_v1_service.run_task`, reduced to the fields the response mapping reads. -/
structure CreatedTaskV1 where
  task_id : String
  status : String
  navigation_goal : Option String
  url : Option String

/-- Modelled from the spec: `TaskV2Request` (outside `src/`), the body of the
dedicated v2 endpoint, reduced to the fields `run_task_v2` reads. -/
structure TaskV2Request where
  user_prompt : Option String
  url : Option String
  totp_identifier : Option String
  totp_verification_url : Option String
  webhook_callback_url : Option String
  proxy_location : Option String
  publish_workflow : Bool
  extracted_information_schema : Option Json
  error_code_mapping : Option Json
  browser_session_id : Option String

/-- Modelled from the spec: the normalized public run view returned by the
unified dispatch endpoint, reduced to a representative subset of fields. -/
structure TaskRunResponse where
  run_id : String
  engine : String
  status : String
  goal : Option String
  url : Option String

/-- Externally visible calls made by the dispatch handlers, in program order.
`createTaskV2Run` records the run-record creation performed inside
`initialize_task_v2` (modelled from the spec: on a reasoning-provider failure
the run is never created). -/
inductive DispatchEffect where
  | permissionCheck
  | logMaxStepsOverride
  | generateTask (user_prompt : Option String)
  | runTaskV1 (req : TaskRequest) (max_steps_override : Option Int)
  | createTaskV2Run (task_v2_id : String)
  | executeTaskV2 (task_v2_id : String) (max_steps_override : Option Json)

/-- Whether a dispatch effect creates or starts a run. -/
def DispatchEffect.isRunCreationOrStart : DispatchEffect → Bool
  | .permissionCheck | .logMaxStepsOverride | .generateTask _ => false
  | .runTaskV1 _ _ | .createTaskV2Run _ | .executeTaskV2 _ _ => true

/-- The collaborators of the dispatch handlers: the task-generation service,
the v1 create-and-start service, and the v2 initializer (which either fails
with `LLMProviderError`, creating nothing, or returns the created record). -/
structure DispatchEnv where
  generate_task : Option String → TaskGeneration
  run_task_v1 : TaskRequest → Option Int → CreatedTaskV1
  initialize_task_v2 : Except Unit TaskV2

/-- `run_task` (agent_protocol.py lines 1509-1624): permission check, then
branch on the engine selector.  For v1: when the request url is falsy, invoke
task generation and take url, navigation goal (falling back to the request
goal via `or`), navigation payload, data extraction goal, and coalesce the
schema via `data_extraction_schema or task_generation.extracted_information_schema`;
then create and start the v1 task.  For v2: initialize the task v2 record
(500 on `LLMProviderError`) and start execution.  Any other selector raises a
400 with the engine echoed in the detail. -/
def run_task (env : DispatchEnv) (run_request : TaskRunRequest) :
    List DispatchEffect × Except HttpError TaskRunResponse :=
  let effects := [DispatchEffect.permissionCheck]
  if run_request.engine == RunEngine.skyvern_v1 then
    let gen :=
      if pyTruthyStr run_request.url then
        (run_request.url, run_request.goal, (none : Option Json), (none : Option String),
         run_request.data_extraction_schema, ([] : List DispatchEffect))
      else
        let task_generation := env.generate_task run_request.goal
        (task_generation.url,
         pyOrStr task_generation.navigation_goal run_request.goal,
         task_generation.navigation_payload,
         task_generation.data_extraction_goal,
         pyOr run_request.data_extraction_schema task_generation.extracted_information_schema,
         [DispatchEffect.generateTask run_request.goal])
    let (url, navigation_goal, navigation_payload, data_extraction_goal,
         data_extraction_schema, gen_effects) := gen
    let task_v1_request : TaskRequest :=
      { title := run_request.title
        url := url
        navigation_goal := navigation_goal
        navigation_payload := navigation_payload
        data_extraction_goal := data_extraction_goal
        extracted_information_schema := data_extraction_schema
        error_code_mapping := run_request.error_code_mapping
        proxy_location := run_request.proxy_location
        browser_session_id := run_request.browser_session_id }
    let task_v1_response := env.run_task_v1 task_v1_request run_request.max_steps
    (effects ++ gen_effects ++ [DispatchEffect.runTaskV1 task_v1_request run_request.max_steps],
     Except.ok
       { run_id := task_v1_response.task_id
         engine := RunEngine.skyvern_v1
         status := task_v1_response.status
         goal := task_v1_response.navigation_goal
         url := task_v1_response.url })
  else if run_request.engine == RunEngine.skyvern_v2 then
    match env.initialize_task_v2 with
    | Except.error _ =>
        (effects,
         Except.error ⟨500, "Skyvern LLM failure to initialize task v2. Please try again later."⟩)
    | Except.ok task_v2 =>
        (effects ++ [DispatchEffect.createTaskV2Run task_v2.observer_cruise_id,
                     DispatchEffect.executeTaskV2 task_v2.observer_cruise_id
                       (run_request.max_steps.map Json.num)],
         Except.ok
           { run_id := task_v2.observer_cruise_id
             engine := RunEngine.skyvern_v2
             status := task_v2.status
             goal := task_v2.prompt
             url := task_v2.url })
  else
    (effects, Except.error ⟨400, "Invalid agent engine: " ++ run_request.engine⟩)

/-- `run_task_v2` (agent_protocol.py lines 1286-1330): log when either override
header is truthy, permission check, initialize the task v2 record (500 on
`LLMProviderError`), then start execution with
`x_max_steps_override or x_max_iterations_override` as the override. -/
def run_task_v2 (env : DispatchEnv) (data : TaskV2Request)
    (x_max_iterations_override x_max_steps_override : Option Json) :
    List DispatchEffect × Except HttpError TaskV2 :=
  let log_effects :=
    if pyTruthy x_max_iterations_override || pyTruthy x_max_steps_override then
      [DispatchEffect.logMaxStepsOverride]
    else []
  let effects := log_effects ++ [DispatchEffect.permissionCheck]
  match env.initialize_task_v2 with
  | Except.error _ =>
      (effects,
       Except.error ⟨500, "Skyvern LLM failure to initialize task v2. Please try again later."⟩)
  | Except.ok task_v2 =>
      (effects ++ [DispatchEffect.createTaskV2Run task_v2.observer_cruise_id,
                   DispatchEffect.executeTaskV2 task_v2.observer_cruise_id
                     (pyOr x_max_steps_override x_max_iterations_override)],
       Except.ok task_v2)

/-! ## Concrete inputs used by witnesses and counterexamples -/

/-- Auxiliary: the status guard of the child-cancel loop as a Bool. -/
def is_active_status (s : WorkflowRunStatus) : Bool :=
  decide (s ∈ [WorkflowRunStatus.running, WorkflowRunStatus.created, WorkflowRunStatus.queued])

/-- Auxiliary: ids of the children the cancel loop actually marks, in order. -/
def active_child_ids (cs : List WorkflowRun) : List String :=
  (cs.filter (fun c => is_active_status c.status)).map WorkflowRun.workflow_run_id

/-- A five-run store: `wr_1` with two active children, one completed child and
one canceled child (the spec's cascade-correctness scenario). -/
def runsW : List WorkflowRun :=
  [⟨"wr_1", "wpid", "org", WorkflowRunStatus.running, none⟩,
   ⟨"wr_2", "wpid", "org", WorkflowRunStatus.running, some "wr_1"⟩,
   ⟨"wr_3", "wpid", "org", WorkflowRunStatus.created, some "wr_1"⟩,
   ⟨"wr_4", "wpid", "org", WorkflowRunStatus.completed, some "wr_1"⟩,
   ⟨"wr_5", "wpid", "org", WorkflowRunStatus.canceled, some "wr_1"⟩]

/-- A one-task store whose task has a recorded prior webhook failure. -/
def tasksW : List TaskV1 :=
  [⟨"tsk_1", "org", TaskStatus.running, some "prior webhook attempt failed"⟩]

/-- A dispatch environment whose v2 initializer succeeds and whose task
generation returns a full generation result. -/
def envOkW : DispatchEnv :=
  { generate_task := fun _ =>
      { url := some "https://generated.example.com"
        navigation_goal := some "generated navigation goal"
        navigation_payload := some (Json.obj [("field", Json.str "value")])
        data_extraction_goal := some "generated extraction goal"
        extracted_information_schema := some (Json.str "generated_schema") }
    run_task_v1 := fun _ _ =>
      { task_id := "tsk_123"
        status := "created"
        navigation_goal := some "generated navigation goal"
        url := some "https://generated.example.com" }
    initialize_task_v2 :=
      Except.ok { observer_cruise_id := "tv2_123", status := "created",
                  prompt := some "the prompt", url := none } }

/-- The same environment except that the v2 initializer fails with
`LLMProviderError`. -/
def envLlmFailW : DispatchEnv :=
  { envOkW with initialize_task_v2 := Except.error () }

/-- A dispatch request carrying an engine selector outside v1/v2. -/
def reqInvalidEngineW : TaskRunRequest :=
  { engine := "openai-cua", title := none, url := none, goal := some "some goal"
    data_extraction_schema := none, error_code_mapping := none, proxy_location := none
    totp_identifier := none, totp_url := none, webhook_url := none
    publish_workflow := false, max_steps := none, browser_session_id := none }

/-- A v2 dispatch request. -/
def reqV2W : TaskRunRequest :=
  { reqInvalidEngineW with engine := RunEngine.skyvern_v2 }

/-- A v1 dispatch request whose url is the empty string (falsy though supplied)
and whose supplied schema is the empty object (falsy though supplied). -/
def reqV1FalsyW : TaskRunRequest :=
  { engine := RunEngine.skyvern_v1, title := none, url := some ""
    goal := some "fill the form", data_extraction_schema := some (Json.obj [])
    error_code_mapping := none, proxy_location := none, totp_identifier := none
    totp_url := none, webhook_url := none, publish_workflow := false
    max_steps := some 7, browser_session_id := none }

/-- A v1 dispatch request with a truthy url and a truthy supplied schema. -/
def reqV1UrlW : TaskRunRequest :=
  { reqV1FalsyW with url := some "https://example.com"
                     data_extraction_schema := some (Json.str "user_schema") }

/-- A v2 endpoint request body. -/
def dataV2W : TaskV2Request :=
  { user_prompt := some "do the thing", url := none, totp_identifier := none
    totp_verification_url := none, webhook_callback_url := none, proxy_location := none
    publish_workflow := false, extracted_information_schema := none
    error_code_mapping := none, browser_session_id := none }

/-- The per-entry contribution of the aggregation loop to the accumulated
timeline: nothing for a blockless entry, the entry itself for a non-`TaskV2`
block, nothing for a dangling `TaskV2` block, and the whole recursively
flattened nested timeline for a `TaskV2` block with a nested id. -/
def timelineStepEntries (db : TimelineDb) (fuel : Nat) (timeline : WorkflowRunTimeline) :
    List WorkflowRunTimeline :=
  match timeline.block with
  | none => []
  | some block =>
    if block.block_type != BlockType.TaskV2 then [timeline]
    else
      match block.block_workflow_run_id with
      | none => []
      | some nested_workflow_run_id =>
          (flatten_workflow_run_timeline db fuel nested_workflow_run_id).1

/-- The per-entry contribution of the aggregation loop to the warning log:
one warning for a dangling `TaskV2` block, the nested run's warnings for a
`TaskV2` block with a nested id, nothing otherwise. -/
def timelineStepWarnings (db : TimelineDb) (fuel : Nat) (workflow_run_id : String)
    (timeline : WorkflowRunTimeline) : List TimelineWarning :=
  match timeline.block with
  | none => []
  | some block =>
    if block.block_type != BlockType.TaskV2 then []
    else
      match block.block_workflow_run_id with
      | none =>
          [TimelineWarning.blockWorkflowRunIdNotSet workflow_run_id
            ((db.task_v2_by_workflow_run_id workflow_run_id).map TaskV2.observer_cruise_id)]
      | some nested_workflow_run_id =>
          (flatten_workflow_run_timeline db fuel nested_workflow_run_id).2

/-- The thought entries appended at one aggregation level. -/
def thoughtEntriesOf (db : TimelineDb) (workflow_run_id : String) : List WorkflowRunTimeline :=
  match db.task_v2_by_workflow_run_id workflow_run_id with
  | some t =>
      if t.observer_cruise_id != "" then
        (db.thought_timelines t.observer_cruise_id).map thought_to_timeline_entry
      else []
  | none => []

/-- The three parent blocks of the spec's splicing scenario (timestamps 10, 20,
30; the middle one a `TaskV2` block pointing at the nested run). -/
def entryT1 : WorkflowRunTimeline :=
  ⟨WorkflowRunTimelineType.block, some ⟨"wrb_1", BlockType.Navigation, none⟩, none, 10, 10⟩

def entryT2 : WorkflowRunTimeline :=
  ⟨WorkflowRunTimelineType.block, some ⟨"wrb_2", BlockType.TaskV2, some "wr_nested"⟩, none, 20, 20⟩

def entryT3 : WorkflowRunTimeline :=
  ⟨WorkflowRunTimelineType.block, some ⟨"wrb_3", BlockType.Navigation, none⟩, none, 30, 30⟩

/-- The nested run's two blocks (timestamps 21 and 22). -/
def entryT21 : WorkflowRunTimeline :=
  ⟨WorkflowRunTimelineType.block, some ⟨"wrb_n1", BlockType.Action, none⟩, none, 21, 21⟩

def entryT22 : WorkflowRunTimeline :=
  ⟨WorkflowRunTimelineType.block, some ⟨"wrb_n2", BlockType.Action, none⟩, none, 22, 22⟩

/-- The record store of the spec's splicing scenario: `wr_parent` has blocks at
10, 20 (TaskV2 → `wr_nested`) and 30; `wr_nested` has blocks at 21 and 22; no
task v2 records and no thoughts. -/
def dbSpliceW : TimelineDb :=
  { task_v2_by_workflow_run_id := fun _ => none
    workflow_run_block_timeline := fun wrid =>
      if wrid == "wr_parent" then [entryT1, entryT2, entryT3]
      else if wrid == "wr_nested" then [entryT21, entryT22]
      else []
    thought_timelines := fun _ => [] }

/-- A malformed raw entry carrying no block payload (and no thought). -/
def entryNoBlockW : WorkflowRunTimeline :=
  ⟨WorkflowRunTimelineType.block, none, none, 5, 5⟩

/-- A `TaskV2` block entry with no nested workflow run id (dangling). -/
def entryDanglingW : WorkflowRunTimeline :=
  ⟨WorkflowRunTimelineType.block, some ⟨"wrb_d", BlockType.TaskV2, none⟩, none, 6, 6⟩

/-- A well-formed non-`TaskV2` block entry. -/
def entryNormalW : WorkflowRunTimeline :=
  ⟨WorkflowRunTimelineType.block, some ⟨"wrb_k", BlockType.Extraction, none⟩, none, 7, 7⟩

/-- A store whose run `wr_drop` has a blockless entry, a dangling `TaskV2`
entry and one normal entry, and an associated task v2 record with no thoughts. -/
def dbDropW : TimelineDb :=
  { task_v2_by_workflow_run_id := fun wrid =>
      if wrid == "wr_drop" then some ⟨"tv2_drop", "running", none, none⟩ else none
    workflow_run_block_timeline := fun wrid =>
      if wrid == "wr_drop" then [entryNoBlockW, entryDanglingW, entryNormalW] else []
    thought_timelines := fun _ => [] }

/-! ## Theorems -/

lemma mem_active_statuses_iff (s : WorkflowRunStatus) :
    s ∈ [WorkflowRunStatus.running, WorkflowRunStatus.created, WorkflowRunStatus.queued]
      ↔ s.is_terminal = false := by
  cases s <;> simp [WorkflowRunStatus.is_terminal]

lemma mark_many_eq_map (ids : List String) (runs : List WorkflowRun) :
    ids.foldl mark_workflow_run_as_canceled runs
      = runs.map (fun r =>
          if r.workflow_run_id ∈ ids then { r with status := WorkflowRunStatus.canceled } else r) := by
  induction ids generalizing runs with
  | nil => simp
  | cons i ids ih =>
      rw [List.foldl_cons, ih, mark_workflow_run_as_canceled, List.map_map]
      refine List.map_congr_left ?_
      intro r _
      by_cases h : r.workflow_run_id = i
      · simp [Function.comp, h]
      · simp [Function.comp, h]

lemma cancel_children_loop (cs : List WorkflowRun) (runs0 : List WorkflowRun)
    (evs0 : List CancelEffect) :
    cs.foldl
      (fun acc child_workflow_run =>
        if child_workflow_run.status ∉
            [WorkflowRunStatus.running, WorkflowRunStatus.created, WorkflowRunStatus.queued] then
          acc
        else
          (mark_workflow_run_as_canceled acc.1 child_workflow_run.workflow_run_id,
           acc.2 ++ [CancelEffect.markWorkflowRunCanceled child_workflow_run.workflow_run_id]))
      (runs0, evs0)
      = ((active_child_ids cs).foldl mark_workflow_run_as_canceled runs0,
         evs0 ++ (active_child_ids cs).map CancelEffect.markWorkflowRunCanceled) := by
  induction cs generalizing runs0 evs0 with
  | nil => simp [active_child_ids]
  | cons c cs ih =>
      rw [List.foldl_cons]
      by_cases h : c.status ∈
          [WorkflowRunStatus.running, WorkflowRunStatus.created, WorkflowRunStatus.queued]
      · rw [if_neg (fun hn => hn h), ih]
        have hb : is_active_status c.status = true := by simpa [is_active_status] using h
        have hids : active_child_ids (c :: cs) = c.workflow_run_id :: active_child_ids cs := by
          simp [active_child_ids, List.filter_cons, hb]
        rw [hids, List.foldl_cons]
        simp
      · rw [if_pos h, ih]
        have hb : is_active_status c.status = false := by simpa [is_active_status] using h
        have hids : active_child_ids (c :: cs) = active_child_ids cs := by
          simp [active_child_ids, List.filter_cons, hb]
        rw [hids]

lemma is_active_status_iff (s : WorkflowRunStatus) :
    is_active_status s = true ↔ s.is_terminal = false := by
  cases s <;> simp [is_active_status, WorkflowRunStatus.is_terminal]

/-- Claim C1: for every existing workflow run, the cascade cancel marks exactly
the direct children in running/created/queued as canceled, leaves terminal
children unchanged, cancels the target regardless of its prior status, and
fires exactly one webhook for the target, after all status writes. -/
theorem cancel_workflow_run_cascade
    (runs : List WorkflowRun) (workflow_run_id organization_id : String) (wr : WorkflowRun)
    (hnodup : (runs.map WorkflowRun.workflow_run_id).Nodup)
    (hnoself : ∀ r ∈ runs, r.parent_workflow_run_id ≠ some r.workflow_run_id)
    (hfound : get_workflow_run runs workflow_run_id organization_id = some wr) :
    ∃ runs2 evs,
      cancel_workflow_run runs workflow_run_id organization_id = Except.ok (runs2, evs) ∧
      runs2 = runs.map (fun r =>
        if r.workflow_run_id = workflow_run_id
           ∨ (r.parent_workflow_run_id = some workflow_run_id
              ∧ r.organization_id = organization_id
              ∧ r.status.is_terminal = false)
        then { r with status := WorkflowRunStatus.canceled } else r) ∧
      { wr with status := WorkflowRunStatus.canceled } ∈ runs2 ∧
      (∀ r ∈ runs,
         r.parent_workflow_run_id = some workflow_run_id →
         r.organization_id = organization_id →
         r.status.is_terminal = true → r ∈ runs2) ∧
      evs.filter CancelEffect.isWebhook = [CancelEffect.workflowRunWebhook workflow_run_id] ∧
      evs.getLast? = some (CancelEffect.workflowRunWebhook workflow_run_id) ∧
      (∀ e ∈ evs.dropLast, e.isStatusWrite = true) := by
  have hfind := hfound
  rw [get_workflow_run] at hfind
  have hwrmem : wr ∈ runs := List.mem_of_find?_eq_some hfind
  have hpred := List.find?_some hfind
  simp only [Bool.and_eq_true, beq_iff_eq] at hpred
  obtain ⟨hwid, horg⟩ := hpred
  set children := get_workflow_runs_by_parent_workflow_run_id runs organization_id workflow_run_id
    with hch
  have hA : ∀ r ∈ runs,
      (r.workflow_run_id ∈ active_child_ids children
        ↔ (r.parent_workflow_run_id = some workflow_run_id
           ∧ r.organization_id = organization_id
           ∧ r.status.is_terminal = false)) := by
    intro r hr
    constructor
    · intro hin
      obtain ⟨c, hcf, hcid⟩ := List.mem_map.mp hin
      obtain ⟨hcch, hcact⟩ := List.mem_filter.mp hcf
      simp only [hch, get_workflow_runs_by_parent_workflow_run_id] at hcch
      obtain ⟨hcruns, hcpred⟩ := List.mem_filter.mp hcch
      simp only [Bool.and_eq_true, beq_iff_eq] at hcpred
      have hceq : c = r := List.inj_on_of_nodup_map hnodup hcruns hr hcid
      subst hceq
      exact ⟨hcpred.1, hcpred.2, (is_active_status_iff _).mp hcact⟩
    · rintro ⟨hp, ho, ht⟩
      have hmemch : r ∈ children := by
        simp only [hch, get_workflow_runs_by_parent_workflow_run_id]
        exact List.mem_filter.mpr ⟨hr, by simp [hp, ho]⟩
      have hmemf : r ∈ children.filter (fun c => is_active_status c.status) :=
        List.mem_filter.mpr ⟨hmemch, (is_active_status_iff _).mpr ht⟩
      exact List.mem_map.mpr ⟨r, hmemf, rfl⟩
  have hmap : mark_workflow_run_as_canceled
        ((active_child_ids children).foldl mark_workflow_run_as_canceled runs) workflow_run_id
      = runs.map (fun r =>
          if r.workflow_run_id = workflow_run_id
             ∨ (r.parent_workflow_run_id = some workflow_run_id
                ∧ r.organization_id = organization_id
                ∧ r.status.is_terminal = false)
          then { r with status := WorkflowRunStatus.canceled } else r) := by
    have h1 := mark_many_eq_map (active_child_ids children ++ [workflow_run_id]) runs
    rw [List.foldl_append] at h1
    simp only [List.foldl_cons, List.foldl_nil] at h1
    rw [h1]
    refine List.map_congr_left ?_
    intro r hr
    refine if_congr ?_ rfl rfl
    rw [List.mem_append, List.mem_singleton, or_comm]
    exact or_congr Iff.rfl (hA r hr)
  have hrun : cancel_workflow_run runs workflow_run_id organization_id
      = Except.ok
          (runs.map (fun r =>
             if r.workflow_run_id = workflow_run_id
                ∨ (r.parent_workflow_run_id = some workflow_run_id
                   ∧ r.organization_id = organization_id
                   ∧ r.status.is_terminal = false)
             then { r with status := WorkflowRunStatus.canceled } else r),
           (active_child_ids children).map CancelEffect.markWorkflowRunCanceled
             ++ [CancelEffect.markWorkflowRunCanceled workflow_run_id,
                 CancelEffect.workflowRunWebhook workflow_run_id]) := by
    simp only [cancel_workflow_run, hfound]
    rw [cancel_children_loop]
    rw [hwid, hmap]
    simp
  refine ⟨_, _, hrun, rfl, ?_, ?_, ?_, ?_, ?_⟩
  · exact List.mem_map.mpr ⟨wr, hwrmem, by rw [if_pos (Or.inl hwid)]⟩
  · intro r hr hp ho ht
    refine List.mem_map.mpr ⟨r, hr, ?_⟩
    refine if_neg ?_
    rintro (hid | hcond)
    · exact hnoself r hr (by rw [hp, hid])
    · rw [hcond.2.2] at ht
      exact Bool.false_ne_true ht
  · rw [List.filter_append]
    have h0 : ((active_child_ids children).map CancelEffect.markWorkflowRunCanceled).filter
        CancelEffect.isWebhook = [] := by
      refine List.filter_eq_nil_iff.mpr ?_
      intro e he
      obtain ⟨i, _, hei⟩ := List.mem_map.mp he
      rw [← hei]
      simp [CancelEffect.isWebhook]
    rw [h0]
    simp [CancelEffect.isWebhook]
  · rw [show [CancelEffect.markWorkflowRunCanceled workflow_run_id,
              CancelEffect.workflowRunWebhook workflow_run_id]
          = [CancelEffect.markWorkflowRunCanceled workflow_run_id]
              ++ [CancelEffect.workflowRunWebhook workflow_run_id] from rfl,
        ← List.append_assoc]
    exact List.getLast?_concat _
  · rw [show [CancelEffect.markWorkflowRunCanceled workflow_run_id,
              CancelEffect.workflowRunWebhook workflow_run_id]
          = [CancelEffect.markWorkflowRunCanceled workflow_run_id]
              ++ [CancelEffect.workflowRunWebhook workflow_run_id] from rfl,
        ← List.append_assoc, List.dropLast_concat]
    intro e he
    rcases List.mem_append.mp he with hm | hm
    · obtain ⟨i, _, hei⟩ := List.mem_map.mp hm
      rw [← hei]
      rfl
    · rw [List.mem_singleton.mp hm]
      rfl

theorem cancel_workflow_run_cascade_witness :
    (runsW.map WorkflowRun.workflow_run_id).Nodup ∧
    (∀ r ∈ runsW, r.parent_workflow_run_id ≠ some r.workflow_run_id) ∧
    get_workflow_run runsW "wr_1" "org"
      = some ⟨"wr_1", "wpid", "org", WorkflowRunStatus.running, none⟩ ∧
    (∃ runs2 evs,
      cancel_workflow_run runsW "wr_1" "org" = Except.ok (runs2, evs) ∧
      runs2 = runsW.map (fun r =>
        if r.workflow_run_id = "wr_1"
           ∨ (r.parent_workflow_run_id = some "wr_1"
              ∧ r.organization_id = "org"
              ∧ r.status.is_terminal = false)
        then { r with status := WorkflowRunStatus.canceled } else r) ∧
      { (⟨"wr_1", "wpid", "org", WorkflowRunStatus.running, none⟩ : WorkflowRun) with
          status := WorkflowRunStatus.canceled } ∈ runs2 ∧
      (∀ r ∈ runsW,
         r.parent_workflow_run_id = some "wr_1" → r.organization_id = "org" →
         r.status.is_terminal = true → r ∈ runs2) ∧
      evs.filter CancelEffect.isWebhook = [CancelEffect.workflowRunWebhook "wr_1"] ∧
      evs.getLast? = some (CancelEffect.workflowRunWebhook "wr_1") ∧
      (∀ e ∈ evs.dropLast, e.isStatusWrite = true)) :=
  ⟨by decide, by decide, by rfl,
   cancel_workflow_run_cascade runsW "wr_1" "org" _ (by decide) (by decide) (by rfl)⟩

/-- Claim C9: single-task cancel is 404 on a missing task with all state
unchanged and no effects; on an existing task it writes the canceled status and
then fires the webhook (strictly after the status write), regardless of any
prior webhook outcome recorded on the task. -/
theorem cancel_task_spec (tasks : List TaskV1) (task_id organization_id : String) :
    (get_task tasks task_id organization_id = none →
       cancel_task tasks task_id organization_id =
         (tasks, [], some ⟨404, "Task not found " ++ task_id⟩)) ∧
    (∀ t, get_task tasks task_id organization_id = some t →
       cancel_task tasks task_id organization_id =
         (tasks.map (fun x =>
            if x.task_id = task_id then { x with status := TaskStatus.canceled } else x),
          [TaskCancelEffect.updateTaskStatus task_id TaskStatus.canceled,
           TaskCancelEffect.getLatestStep task_id,
           TaskCancelEffect.taskWebhook task_id],
          none)) := by
  constructor
  · intro hnone
    simp only [cancel_task, hnone]
  · intro t hsome
    have hfind := hsome
    rw [get_task] at hfind
    have hpred := List.find?_some hfind
    simp only [Bool.and_eq_true, beq_iff_eq] at hpred
    obtain ⟨htid, _⟩ := hpred
    simp only [cancel_task, hsome, update_task, htid]
    refine congrArg (fun l => (l,
      [TaskCancelEffect.updateTaskStatus task_id TaskStatus.canceled,
       TaskCancelEffect.getLatestStep task_id,
       TaskCancelEffect.taskWebhook task_id], (none : Option HttpError))) ?_
    refine List.map_congr_left ?_
    intro x _
    refine if_congr ?_ rfl rfl
    rw [beq_iff_eq]

theorem cancel_task_spec_witness :
    (get_task tasksW "tsk_missing" "org" = none ∧
     cancel_task tasksW "tsk_missing" "org" =
       (tasksW, [], some ⟨404, "Task not found " ++ "tsk_missing"⟩)) ∧
    (get_task tasksW "tsk_1" "org"
       = some ⟨"tsk_1", "org", TaskStatus.running, some "prior webhook attempt failed"⟩ ∧
     cancel_task tasksW "tsk_1" "org" =
       (tasksW.map (fun x =>
          if x.task_id = "tsk_1" then { x with status := TaskStatus.canceled } else x),
        [TaskCancelEffect.updateTaskStatus "tsk_1" TaskStatus.canceled,
         TaskCancelEffect.getLatestStep "tsk_1",
         TaskCancelEffect.taskWebhook "tsk_1"],
        none)) :=
  ⟨⟨by rfl, (cancel_task_spec tasksW "tsk_missing" "org").1 (by rfl)⟩,
   ⟨by rfl,
    (cancel_task_spec tasksW "tsk_1" "org").2
      ⟨"tsk_1", "org", TaskStatus.running, some "prior webhook attempt failed"⟩ (by rfl)⟩⟩

/-- Claim C10: the timeline endpoint accepts page and page_size query
parameters but its result is independent of them and always equals the
complete recursive flatten. -/
theorem get_workflow_run_timeline_ignores_pagination
    (db : TimelineDb) (fuel : Nat) (workflow_run_id : String)
    (page1 page_size1 page2 page_size2 : Nat) :
    get_workflow_run_timeline db fuel workflow_run_id page1 page_size1 =
      get_workflow_run_timeline db fuel workflow_run_id page2 page_size2 ∧
    get_workflow_run_timeline db fuel workflow_run_id page1 page_size1 =
      (flatten_workflow_run_timeline db fuel workflow_run_id).1 :=
  ⟨rfl, rfl⟩

/-- Claim C4: a dispatch request whose engine selector is neither v1 nor v2
fails with a 400 invalid-engine error and neither creates nor starts any run. -/
theorem run_task_invalid_engine (env : DispatchEnv) (run_request : TaskRunRequest)
    (h1 : run_request.engine ≠ RunEngine.skyvern_v1)
    (h2 : run_request.engine ≠ RunEngine.skyvern_v2) :
    run_task env run_request =
      ([DispatchEffect.permissionCheck],
       Except.error ⟨400, "Invalid agent engine: " ++ run_request.engine⟩) ∧
    ∀ e ∈ (run_task env run_request).1, e.isRunCreationOrStart = false := by
  have hb1 : (run_request.engine == RunEngine.skyvern_v1) = false := by
    simpa using h1
  have hb2 : (run_request.engine == RunEngine.skyvern_v2) = false := by
    simpa using h2
  have hrun : run_task env run_request =
      ([DispatchEffect.permissionCheck],
       Except.error ⟨400, "Invalid agent engine: " ++ run_request.engine⟩) := by
    simp [run_task, hb1, hb2]
  refine ⟨hrun, ?_⟩
  intro e he
  rw [hrun] at he
  simp at he
  rw [he]
  rfl

theorem run_task_invalid_engine_witness :
    reqInvalidEngineW.engine ≠ RunEngine.skyvern_v1 ∧
    reqInvalidEngineW.engine ≠ RunEngine.skyvern_v2 ∧
    (run_task envOkW reqInvalidEngineW =
       ([DispatchEffect.permissionCheck],
        Except.error ⟨400, "Invalid agent engine: " ++ reqInvalidEngineW.engine⟩) ∧
     ∀ e ∈ (run_task envOkW reqInvalidEngineW).1, e.isRunCreationOrStart = false) :=
  ⟨by decide, by decide,
   run_task_invalid_engine envOkW reqInvalidEngineW (by decide) (by decide)⟩

/-- Claim C5: a reasoning-provider failure during v2 initialization makes both
the unified dispatch endpoint and the dedicated v2 endpoint fail with the 500
try-again-later error, with no run created and no execution started. -/
theorem run_task_llm_provider_failure (env : DispatchEnv) (run_request : TaskRunRequest)
    (data : TaskV2Request) (x_max_iterations_override x_max_steps_override : Option Json)
    (hengine : run_request.engine = RunEngine.skyvern_v2)
    (hinit : env.initialize_task_v2 = Except.error ()) :
    (run_task env run_request).2 =
      Except.error ⟨500, "Skyvern LLM failure to initialize task v2. Please try again later."⟩ ∧
    (∀ e ∈ (run_task env run_request).1, e.isRunCreationOrStart = false) ∧
    (run_task_v2 env data x_max_iterations_override x_max_steps_override).2 =
      Except.error ⟨500, "Skyvern LLM failure to initialize task v2. Please try again later."⟩ ∧
    (∀ e ∈ (run_task_v2 env data x_max_iterations_override x_max_steps_override).1,
       e.isRunCreationOrStart = false) := by
  have hb1 : (run_request.engine == RunEngine.skyvern_v1) = false := by
    rw [hengine]; decide
  have hb2 : (run_request.engine == RunEngine.skyvern_v2) = true := by
    rw [hengine]; decide
  refine ⟨?_, ?_, ?_, ?_⟩
  · simp [run_task, hb1, hb2, hinit]
  · intro e he
    simp only [run_task, hb1, hb2, hinit] at he
    simp at he
    rw [he]
    rfl
  · simp [run_task_v2, hinit]
  · intro e he
    simp only [run_task_v2, hinit] at he
    by_cases hc : (pyTruthy x_max_iterations_override || pyTruthy x_max_steps_override) = true
    · simp [hc] at he
      rcases he with he | he <;> (rw [he]; rfl)
    · simp [hc] at he
      rw [he]
      rfl

theorem run_task_llm_provider_failure_witness :
    reqV2W.engine = RunEngine.skyvern_v2 ∧
    envLlmFailW.initialize_task_v2 = Except.error () ∧
    ((run_task envLlmFailW reqV2W).2 =
       Except.error ⟨500, "Skyvern LLM failure to initialize task v2. Please try again later."⟩ ∧
     (∀ e ∈ (run_task envLlmFailW reqV2W).1, e.isRunCreationOrStart = false) ∧
     (run_task_v2 envLlmFailW dataV2W none none).2 =
       Except.error ⟨500, "Skyvern LLM failure to initialize task v2. Please try again later."⟩ ∧
     (∀ e ∈ (run_task_v2 envLlmFailW dataV2W none none).1, e.isRunCreationOrStart = false)) :=
  ⟨by rfl, by rfl,
   run_task_llm_provider_failure envLlmFailW reqV2W dataV2W none none (by rfl) (by rfl)⟩

/-- Claim C6 counterexample: with both override headers supplied —
x_max_steps_override the integer 0 and x_max_iterations_override the integer 5
— the value handed to the executor is the iterations value 5, not the supplied
max-steps value 0: the max-steps-named field does not take precedence when
both are supplied. -/
theorem run_task_v2_override_counterexample :
    (run_task_v2 envOkW dataV2W (some (Json.num 5)) (some (Json.num 0))).1 =
      [DispatchEffect.logMaxStepsOverride, DispatchEffect.permissionCheck,
       DispatchEffect.createTaskV2Run "tv2_123",
       DispatchEffect.executeTaskV2 "tv2_123" (some (Json.num 5))] ∧
    some (Json.num 5) ≠ some (Json.num 0) := by
  refine ⟨rfl, ?_⟩
  intro h
  simp at h

/-- Claim C6 amended: the override passed to the executor is
`x_max_steps_override or x_max_iterations_override` under Python truthiness —
the max-steps field takes precedence when it is truthy (e.g. a nonzero
integer); a falsy supplied max-steps value (e.g. 0) is treated as absent and
the iterations field is used; and a log record is emitted exactly when either
supplied override is truthy (in particular for any nonzero integer override). -/
theorem run_task_v2_override_coalescing (env : DispatchEnv) (data : TaskV2Request)
    (x_max_iterations_override x_max_steps_override : Option Json) (t : TaskV2)
    (hinit : env.initialize_task_v2 = Except.ok t) :
    (∀ x, DispatchEffect.executeTaskV2 t.observer_cruise_id x
            ∈ (run_task_v2 env data x_max_iterations_override x_max_steps_override).1
          ↔ x = pyOr x_max_steps_override x_max_iterations_override) ∧
    (pyTruthy x_max_steps_override = true →
       pyOr x_max_steps_override x_max_iterations_override = x_max_steps_override) ∧
    (pyTruthy x_max_steps_override = false →
       pyOr x_max_steps_override x_max_iterations_override = x_max_iterations_override) ∧
    ((DispatchEffect.logMaxStepsOverride
        ∈ (run_task_v2 env data x_max_iterations_override x_max_steps_override).1)
      ↔ (pyTruthy x_max_iterations_override || pyTruthy x_max_steps_override) = true) := by
  refine ⟨?_, ?_, ?_, ?_⟩
  · intro x
    by_cases hc : (pyTruthy x_max_iterations_override || pyTruthy x_max_steps_override) = true
    · simp [run_task_v2, hinit, hc, eq_comm]
    · simp [run_task_v2, hinit, hc, eq_comm]
  · intro h
    simp [pyOr, h]
  · intro h
    simp [pyOr, h]
  · by_cases hc : (pyTruthy x_max_iterations_override || pyTruthy x_max_steps_override) = true
    · simp [run_task_v2, hinit, hc]
    · simp [run_task_v2, hinit, hc]

theorem run_task_v2_override_coalescing_witness :
    envOkW.initialize_task_v2 =
      Except.ok ⟨"tv2_123", "created", some "the prompt", none⟩ ∧
    ((∀ x, DispatchEffect.executeTaskV2 "tv2_123" x
             ∈ (run_task_v2 envOkW dataV2W (some (Json.num 3)) none).1
           ↔ x = pyOr none (some (Json.num 3))) ∧
     (pyTruthy (none : Option Json) = true →
        pyOr none (some (Json.num 3)) = none) ∧
     (pyTruthy (none : Option Json) = false →
        pyOr none (some (Json.num 3)) = some (Json.num 3)) ∧
     ((DispatchEffect.logMaxStepsOverride
         ∈ (run_task_v2 envOkW dataV2W (some (Json.num 3)) none).1)
       ↔ (pyTruthy (some (Json.num 3)) || pyTruthy (none : Option Json)) = true)) :=
  ⟨by rfl,
   run_task_v2_override_coalescing envOkW dataV2W (some (Json.num 3)) none
     ⟨"tv2_123", "created", some "the prompt", none⟩ (by rfl)⟩

/-- Claim C7 counterexample: the request `reqV1FalsyW` supplies a URL (the
empty string) and an explicit data_extraction_schema (the empty object), yet
the dispatcher still invokes task generation, and the schema passed to task
creation is the generated one, not the supplied one — so "task generation is
not invoked when a URL is supplied" and "an explicitly supplied
data_extraction_schema always overrides the generated schema" both fail. -/
theorem run_task_v1_generation_counterexample :
    reqV1FalsyW.url = some "" ∧
    reqV1FalsyW.data_extraction_schema = some (Json.obj []) ∧
    DispatchEffect.generateTask (some "fill the form") ∈ (run_task envOkW reqV1FalsyW).1 ∧
    (∀ req ms, DispatchEffect.runTaskV1 req ms ∈ (run_task envOkW reqV1FalsyW).1 →
       req.extracted_information_schema = some (Json.str "generated_schema")) ∧
    some (Json.str "generated_schema") ≠ some (Json.obj []) := by
  have hrun : (run_task envOkW reqV1FalsyW).1 =
      [DispatchEffect.permissionCheck,
       DispatchEffect.generateTask (some "fill the form"),
       DispatchEffect.runTaskV1
         { title := none
           url := some "https://generated.example.com"
           navigation_goal := some "generated navigation goal"
           navigation_payload := some (Json.obj [("field", Json.str "value")])
           data_extraction_goal := some "generated extraction goal"
           extracted_information_schema := some (Json.str "generated_schema")
           error_code_mapping := none
           proxy_location := none
           browser_session_id := none }
         (some 7)] := rfl
  refine ⟨rfl, rfl, ?_, ?_, ?_⟩
  · rw [hrun]
    simp
  · intro req ms hm
    rw [hrun] at hm
    simp at hm
    rw [hm.1]
  · intro h
    simp at h

/-- Claim C7 amended: for a v1 dispatch, when the supplied URL is truthy the
task-generation collaborator is not invoked and the created task carries the
request's own fields; when the supplied URL is falsy (absent or empty), task
generation is invoked before creation and supplies url, navigation goal
(falling back to the request goal), navigation payload and extraction goal,
while the extraction schema is coalesced by Python `or`: a truthy supplied
data_extraction_schema overrides the generated one (a falsy supplied value
falls back to the generated schema). -/
theorem run_task_v1_generation (env : DispatchEnv) (run_request : TaskRunRequest)
    (hengine : run_request.engine = RunEngine.skyvern_v1) :
    (pyTruthyStr run_request.url = true →
       (run_task env run_request).1 =
         [DispatchEffect.permissionCheck,
          DispatchEffect.runTaskV1
            { title := run_request.title
              url := run_request.url
              navigation_goal := run_request.goal
              navigation_payload := none
              data_extraction_goal := none
              extracted_information_schema := run_request.data_extraction_schema
              error_code_mapping := run_request.error_code_mapping
              proxy_location := run_request.proxy_location
              browser_session_id := run_request.browser_session_id }
            run_request.max_steps]) ∧
    (pyTruthyStr run_request.url = false →
       (run_task env run_request).1 =
         [DispatchEffect.permissionCheck,
          DispatchEffect.generateTask run_request.goal,
          DispatchEffect.runTaskV1
            { title := run_request.title
              url := (env.generate_task run_request.goal).url
              navigation_goal :=
                pyOrStr (env.generate_task run_request.goal).navigation_goal run_request.goal
              navigation_payload := (env.generate_task run_request.goal).navigation_payload
              data_extraction_goal := (env.generate_task run_request.goal).data_extraction_goal
              extracted_information_schema :=
                pyOr run_request.data_extraction_schema
                  (env.generate_task run_request.goal).extracted_information_schema
              error_code_mapping := run_request.error_code_mapping
              proxy_location := run_request.proxy_location
              browser_session_id := run_request.browser_session_id }
            run_request.max_steps]) ∧
    (∀ generated, pyTruthy run_request.data_extraction_schema = true →
       pyOr run_request.data_extraction_schema generated = run_request.data_extraction_schema) := by
  have hb1 : (run_request.engine == RunEngine.skyvern_v1) = true := by
    rw [hengine]; decide
  refine ⟨?_, ?_, ?_⟩
  · intro hurl
    simp [run_task, hb1, hurl]
  · intro hurl
    simp [run_task, hb1, hurl]
  · intro generated h
    simp [pyOr, h]

theorem run_task_v1_generation_witness :
    reqV1UrlW.engine = RunEngine.skyvern_v1 ∧
    ((pyTruthyStr reqV1UrlW.url = true →
       (run_task envOkW reqV1UrlW).1 =
         [DispatchEffect.permissionCheck,
          DispatchEffect.runTaskV1
            { title := reqV1UrlW.title
              url := reqV1UrlW.url
              navigation_goal := reqV1UrlW.goal
              navigation_payload := none
              data_extraction_goal := none
              extracted_information_schema := reqV1UrlW.data_extraction_schema
              error_code_mapping := reqV1UrlW.error_code_mapping
              proxy_location := reqV1UrlW.proxy_location
              browser_session_id := reqV1UrlW.browser_session_id }
            reqV1UrlW.max_steps]) ∧
     (pyTruthyStr reqV1UrlW.url = false →
       (run_task envOkW reqV1UrlW).1 =
         [DispatchEffect.permissionCheck,
          DispatchEffect.generateTask reqV1UrlW.goal,
          DispatchEffect.runTaskV1
            { title := reqV1UrlW.title
              url := (envOkW.generate_task reqV1UrlW.goal).url
              navigation_goal :=
                pyOrStr (envOkW.generate_task reqV1UrlW.goal).navigation_goal reqV1UrlW.goal
              navigation_payload := (envOkW.generate_task reqV1UrlW.goal).navigation_payload
              data_extraction_goal := (envOkW.generate_task reqV1UrlW.goal).data_extraction_goal
              extracted_information_schema :=
                pyOr reqV1UrlW.data_extraction_schema
                  (envOkW.generate_task reqV1UrlW.goal).extracted_information_schema
              error_code_mapping := reqV1UrlW.error_code_mapping
              proxy_location := reqV1UrlW.proxy_location
              browser_session_id := reqV1UrlW.browser_session_id }
            reqV1UrlW.max_steps]) ∧
     (∀ generated, pyTruthy reqV1UrlW.data_extraction_schema = true →
        pyOr reqV1UrlW.data_extraction_schema generated = reqV1UrlW.data_extraction_schema)) :=
  ⟨by rfl, run_task_v1_generation envOkW reqV1UrlW (by rfl)⟩

lemma sortTimelineDesc_perm (l : List WorkflowRunTimeline) :
    List.Perm (sortTimelineDesc l) l :=
  List.perm_insertionSort timelineDesc l

lemma sortTimelineDesc_sorted (l : List WorkflowRunTimeline) :
    (sortTimelineDesc l).Pairwise timelineDesc :=
  List.sorted_insertionSort timelineDesc l

lemma timeline_loop_eq (db : TimelineDb) (fuel : Nat) (workflow_run_id : String)
    (ts : List WorkflowRunTimeline) (acc0 : List WorkflowRunTimeline × List TimelineWarning) :
    ts.foldl
      (fun acc timeline =>
        match timeline.block with
        | none => acc
        | some block =>
          if block.block_type != BlockType.TaskV2 then
            (acc.1 ++ [timeline], acc.2)
          else
            match block.block_workflow_run_id with
            | none =>
                (acc.1,
                 acc.2 ++ [TimelineWarning.blockWorkflowRunIdNotSet workflow_run_id
                    ((db.task_v2_by_workflow_run_id workflow_run_id).map TaskV2.observer_cruise_id)])
            | some nested_workflow_run_id =>
                (acc.1 ++ sortTimelineDesc
                    (flatten_workflow_run_timeline_aux db fuel nested_workflow_run_id).1,
                 acc.2 ++ (flatten_workflow_run_timeline_aux db fuel nested_workflow_run_id).2))
      acc0
      = (acc0.1 ++ ts.flatMap (timelineStepEntries db fuel),
         acc0.2 ++ ts.flatMap (timelineStepWarnings db fuel workflow_run_id)) := by
  induction ts generalizing acc0 with
  | nil => simp
  | cons t ts ih =>
      rw [List.foldl_cons, ih]
      rcases ht : t.block with _ | block
      · simp [timelineStepEntries, timelineStepWarnings, ht]
      · by_cases hbt : (block.block_type != BlockType.TaskV2) = true
        · simp [timelineStepEntries, timelineStepWarnings, ht, hbt]
        · rcases hbw : block.block_workflow_run_id with _ | nested
          · simp [timelineStepEntries, timelineStepWarnings, ht, hbt, hbw]
          · simp [timelineStepEntries, timelineStepWarnings, ht, hbt, hbw,
                  flatten_workflow_run_timeline]

lemma flatten_aux_succ (db : TimelineDb) (fuel : Nat) (workflow_run_id : String) :
    flatten_workflow_run_timeline_aux db (fuel + 1) workflow_run_id
      = ((db.workflow_run_block_timeline workflow_run_id).flatMap (timelineStepEntries db fuel)
           ++ thoughtEntriesOf db workflow_run_id,
         (db.workflow_run_block_timeline workflow_run_id).flatMap
           (timelineStepWarnings db fuel workflow_run_id)) := by
  simp only [flatten_workflow_run_timeline_aux]
  rw [timeline_loop_eq]
  rcases htv : db.task_v2_by_workflow_run_id workflow_run_id with _ | t
  · simp [thoughtEntriesOf, htv]
  · by_cases hid : (t.observer_cruise_id != "") = true
    · simp [thoughtEntriesOf, htv, hid]
    · simp [thoughtEntriesOf, htv, hid]

lemma flatten_mem_shape :
    ∀ (fuel : Nat) (db : TimelineDb) (workflow_run_id : String) (e : WorkflowRunTimeline),
    e ∈ (flatten_workflow_run_timeline db fuel workflow_run_id).1 →
    (∃ b, e.block = some b ∧ b.block_type ≠ BlockType.TaskV2)
      ∨ (∃ t, e.block = none ∧ e.thought = some t ∧ e = thought_to_timeline_entry t) := by
  intro fuel
  induction fuel with
  | zero =>
      intro db workflow_run_id e he
      simp [flatten_workflow_run_timeline, flatten_workflow_run_timeline_aux,
            sortTimelineDesc] at he
  | succ fuel ih =>
      intro db workflow_run_id e he
      simp only [flatten_workflow_run_timeline] at he
      have he2 : e ∈ (flatten_workflow_run_timeline_aux db (fuel + 1) workflow_run_id).1 :=
        (sortTimelineDesc_perm _).mem_iff.mp he
      rw [flatten_aux_succ] at he2
      rcases List.mem_append.mp he2 with hm | hm
      · obtain ⟨t, _, hmem⟩ := List.mem_flatMap.mp hm
        rcases hb : t.block with _ | block
        · simp [timelineStepEntries, hb] at hmem
        · by_cases hbt : (block.block_type != BlockType.TaskV2) = true
          · have : e = t := by
              simpa [timelineStepEntries, hb, hbt] using hmem
            subst this
            exact Or.inl ⟨block, hb, by simpa using hbt⟩
          · rcases hbw : block.block_workflow_run_id with _ | nested
            · simp [timelineStepEntries, hb, hbt, hbw] at hmem
            · have : e ∈ (flatten_workflow_run_timeline db fuel nested).1 := by
                simpa [timelineStepEntries, hb, hbt, hbw] using hmem
              exact ih db nested e this
      · rcases htv : db.task_v2_by_workflow_run_id workflow_run_id with _ | t
        · simp [thoughtEntriesOf, htv] at hm
        · by_cases hid : (t.observer_cruise_id != "") = true
          · have hmem : ∃ a ∈ db.thought_timelines t.observer_cruise_id,
                thought_to_timeline_entry a = e := by
              simpa [thoughtEntriesOf, htv, hid] using hm
            obtain ⟨th, _, hth⟩ := hmem
            exact Or.inr ⟨th, by rw [← hth]; exact ⟨rfl, rfl, rfl⟩⟩
          · simp [thoughtEntriesOf, htv, hid] at hm

/-- Claim C2: in the aggregation, a `TaskV2`-block entry never appears in the
output; a raw entry with any other block kind is kept as-is; and a `TaskV2`
block carrying a nested workflow-run id is replaced by the entire recursively
built timeline of that nested run spliced into the current level's output —
illustrated exactly on the spec's splicing scenario. -/
theorem flatten_timeline_splices_task_v2 :
    (∀ (db : TimelineDb) (fuel : Nat) (workflow_run_id : String) (e : WorkflowRunTimeline)
        (b : WorkflowRunBlock),
       e ∈ (flatten_workflow_run_timeline db fuel workflow_run_id).1 →
       e.block = some b → b.block_type ≠ BlockType.TaskV2) ∧
    (∀ (db : TimelineDb) (fuel : Nat) (workflow_run_id : String) (e : WorkflowRunTimeline)
        (b : WorkflowRunBlock),
       e ∈ db.workflow_run_block_timeline workflow_run_id →
       e.block = some b → b.block_type ≠ BlockType.TaskV2 →
       e ∈ (flatten_workflow_run_timeline db (fuel + 1) workflow_run_id).1) ∧
    (∀ (db : TimelineDb) (fuel : Nat) (workflow_run_id : String)
        (t : WorkflowRunTimeline) (b : WorkflowRunBlock) (nested : String)
        (e : WorkflowRunTimeline),
       t ∈ db.workflow_run_block_timeline workflow_run_id →
       t.block = some b → b.block_type = BlockType.TaskV2 →
       b.block_workflow_run_id = some nested →
       e ∈ (flatten_workflow_run_timeline db fuel nested).1 →
       e ∈ (flatten_workflow_run_timeline db (fuel + 1) workflow_run_id).1) ∧
    (flatten_workflow_run_timeline dbSpliceW 2 "wr_parent").1 =
      [entryT3, entryT22, entryT21, entryT1] := by
  refine ⟨?_, ?_, ?_, ?_⟩
  · intro db fuel workflow_run_id e b he hb
    rcases flatten_mem_shape fuel db workflow_run_id e he with ⟨b2, hb2, hbt⟩ | ⟨t, hbn, _⟩
    · rw [hb] at hb2
      injection hb2 with hbb
      rw [hbb]
      exact hbt
    · rw [hb] at hbn
      exact Option.noConfusion hbn
  · intro db fuel workflow_run_id e b he hb hbt
    simp only [flatten_workflow_run_timeline]
    refine (sortTimelineDesc_perm _).mem_iff.mpr ?_
    rw [flatten_aux_succ]
    refine List.mem_append.mpr (Or.inl ?_)
    refine List.mem_flatMap.mpr ⟨e, he, ?_⟩
    simp [timelineStepEntries, hb, hbt]
  · intro db fuel workflow_run_id t b nested e ht hb hbt hbw he
    simp only [flatten_workflow_run_timeline]
    refine (sortTimelineDesc_perm _).mem_iff.mpr ?_
    rw [flatten_aux_succ]
    refine List.mem_append.mpr (Or.inl ?_)
    refine List.mem_flatMap.mpr ⟨t, ht, ?_⟩
    simpa [timelineStepEntries, hb, hbt, hbw] using he
  · decide

theorem flatten_timeline_splices_task_v2_witness :
    (entryT2 ∈ dbSpliceW.workflow_run_block_timeline "wr_parent" ∧
     entryT2.block = some ⟨"wrb_2", BlockType.TaskV2, some "wr_nested"⟩ ∧
     (⟨"wrb_2", BlockType.TaskV2, some "wr_nested"⟩ : WorkflowRunBlock).block_type
       = BlockType.TaskV2 ∧
     (⟨"wrb_2", BlockType.TaskV2, some "wr_nested"⟩ : WorkflowRunBlock).block_workflow_run_id
       = some "wr_nested" ∧
     entryT21 ∈ (flatten_workflow_run_timeline dbSpliceW 1 "wr_nested").1) ∧
    entryT21 ∈ (flatten_workflow_run_timeline dbSpliceW 2 "wr_parent").1 :=
  ⟨⟨by decide, by rfl, by rfl, by rfl, by decide⟩,
   flatten_timeline_splices_task_v2.2.2.1 dbSpliceW 1 "wr_parent" entryT2
     ⟨"wrb_2", BlockType.TaskV2, some "wr_nested"⟩ "wr_nested" entryT21
     (by decide) (by rfl) (by rfl) (by rfl) (by decide)⟩

/-- Claim C3: the aggregator's output is sorted by creation timestamp
descending, is a permutation of the accumulated entries (each present exactly
once, none duplicated or lost), and is strictly descending whenever the
accumulated timestamps are pairwise distinct. -/
theorem flatten_timeline_sorted_desc (db : TimelineDb) (fuel : Nat) (workflow_run_id : String) :
    ((flatten_workflow_run_timeline db fuel workflow_run_id).1).Pairwise timelineDesc ∧
    List.Perm (flatten_workflow_run_timeline db fuel workflow_run_id).1
      (flatten_workflow_run_timeline_aux db fuel workflow_run_id).1 ∧
    (((flatten_workflow_run_timeline_aux db fuel workflow_run_id).1).Pairwise
        (fun a b => a.created_at ≠ b.created_at) →
      ((flatten_workflow_run_timeline db fuel workflow_run_id).1).Pairwise
        (fun a b => b.created_at < a.created_at)) := by
  refine ⟨?_, ?_, ?_⟩
  · simp only [flatten_workflow_run_timeline]
    exact sortTimelineDesc_sorted _
  · simp only [flatten_workflow_run_timeline]
    exact sortTimelineDesc_perm _
  · intro hne
    have hs : ((flatten_workflow_run_timeline db fuel workflow_run_id).1).Pairwise
        timelineDesc := by
      simp only [flatten_workflow_run_timeline]
      exact sortTimelineDesc_sorted _
    have hperm : List.Perm (flatten_workflow_run_timeline db fuel workflow_run_id).1
        (flatten_workflow_run_timeline_aux db fuel workflow_run_id).1 := by
      simp only [flatten_workflow_run_timeline]
      exact sortTimelineDesc_perm _
    have hne2 : ((flatten_workflow_run_timeline db fuel workflow_run_id).1).Pairwise
        (fun a b => a.created_at ≠ b.created_at) := by
      refine (List.Perm.pairwise_iff ?_ hperm).mpr hne
      intro a b hab
      exact Ne.symm hab
    have hcomb := List.Pairwise.and hs hne2
    refine hcomb.imp ?_
    rintro a b ⟨hle, hnab⟩
    exact lt_of_le_of_ne hle fun hEq => hnab hEq.symm

theorem flatten_timeline_sorted_desc_witness :
    ((flatten_workflow_run_timeline_aux dbSpliceW 2 "wr_parent").1).Pairwise
      (fun a b => a.created_at ≠ b.created_at) ∧
    ((flatten_workflow_run_timeline dbSpliceW 2 "wr_parent").1).Pairwise
      (fun a b => b.created_at < a.created_at) :=
  ⟨by decide, (flatten_timeline_sorted_desc dbSpliceW 2 "wr_parent").2.2 (by decide)⟩

/-- Claim C8: a raw entry with no block payload produces no output entry (any
blockless output entry is a rendered thought), a `TaskV2` entry lacking a
nested workflow-run id produces no output entry and records a warning, and in
neither case is an error surfaced or the aggregation aborted — illustrated on
a store containing both malformed kinds. -/
theorem flatten_timeline_drops_malformed :
    (∀ (db : TimelineDb) (fuel : Nat) (workflow_run_id : String) (e : WorkflowRunTimeline),
       e ∈ (flatten_workflow_run_timeline db fuel workflow_run_id).1 →
       e.block = none →
       ∃ t, e.thought = some t ∧ e = thought_to_timeline_entry t) ∧
    (∀ (db : TimelineDb) (fuel : Nat) (workflow_run_id : String)
        (t : WorkflowRunTimeline) (b : WorkflowRunBlock),
       t ∈ db.workflow_run_block_timeline workflow_run_id →
       t.block = some b → b.block_type = BlockType.TaskV2 →
       b.block_workflow_run_id = none →
       TimelineWarning.blockWorkflowRunIdNotSet workflow_run_id
           ((db.task_v2_by_workflow_run_id workflow_run_id).map TaskV2.observer_cruise_id)
         ∈ (flatten_workflow_run_timeline db (fuel + 1) workflow_run_id).2 ∧
       ∀ e ∈ (flatten_workflow_run_timeline db (fuel + 1) workflow_run_id).1, e ≠ t) ∧
    flatten_workflow_run_timeline dbDropW 1 "wr_drop" =
      ([entryNormalW],
       [TimelineWarning.blockWorkflowRunIdNotSet "wr_drop" (some "tv2_drop")]) := by
  refine ⟨?_, ?_, ?_⟩
  · intro db fuel workflow_run_id e he hbn
    rcases flatten_mem_shape fuel db workflow_run_id e he with ⟨b2, hb2, _⟩ | ⟨t, _, hth, hte⟩
    · rw [hbn] at hb2
      exact Option.noConfusion hb2
    · exact ⟨t, hth, hte⟩
  · intro db fuel workflow_run_id t b ht hb hbt hbw
    constructor
    · simp only [flatten_workflow_run_timeline]
      rw [flatten_aux_succ]
      refine List.mem_flatMap.mpr ⟨t, ht, ?_⟩
      simp [timelineStepWarnings, hb, hbt, hbw]
    · intro e he heq
      rcases flatten_mem_shape (fuel + 1) db workflow_run_id e he
        with ⟨b2, hb2, hbt2⟩ | ⟨t2, hbn2, _⟩
      · rw [heq, hb] at hb2
        injection hb2 with hbb
        exact hbt2 (hbb ▸ hbt)
      · rw [heq, hb] at hbn2
        exact Option.noConfusion hbn2
  · decide

theorem flatten_timeline_drops_malformed_witness :
    (entryDanglingW ∈ dbDropW.workflow_run_block_timeline "wr_drop" ∧
     entryDanglingW.block = some ⟨"wrb_d", BlockType.TaskV2, none⟩ ∧
     (⟨"wrb_d", BlockType.TaskV2, none⟩ : WorkflowRunBlock).block_type = BlockType.TaskV2 ∧
     (⟨"wrb_d", BlockType.TaskV2, none⟩ : WorkflowRunBlock).block_workflow_run_id = none) ∧
    (TimelineWarning.blockWorkflowRunIdNotSet "wr_drop"
         ((dbDropW.task_v2_by_workflow_run_id "wr_drop").map TaskV2.observer_cruise_id)
       ∈ (flatten_workflow_run_timeline dbDropW 1 "wr_drop").2 ∧
     ∀ e ∈ (flatten_workflow_run_timeline dbDropW 1 "wr_drop").1, e ≠ entryDanglingW) :=
  ⟨⟨by decide, by rfl, by rfl, by rfl⟩,
   flatten_timeline_drops_malformed.2.1 dbDropW 0 "wr_drop" entryDanglingW
     ⟨"wrb_d", BlockType.TaskV2, none⟩ (by decide) (by rfl) (by rfl) (by rfl)⟩
